import Mathlib

/-!
Verification development for the LegendGeom geometry package.

The development shallowly embeds the two computational cores of the
repository:

* `decode_polycone` — the ICPC crystal profile decoder
  (`pylegendgeom/LegendBaseline/coaxialTemplate/icpc.py`,
  `DetICPC._decode_polycone`), together with the surrounding
  `DetICPC.__init__` / `_read_from_file` behaviour.  The JSON dictionary
  is modelled as nested structures of `Option` fields; a Python
  `dict[key]` access is `getK`, which returns `Except.error key`
  (a `KeyError`) when the field is absent.  Python floats are modelled
  as real numbers.

* the layout computation of `LTank.build_copper_inserts`
  (`pylegendgeom/LegendBaseline/L1000Baseline/LInfrastructure.py`): the
  single-tower map `local_store`, the tracked minimum `zmin`, the
  re-basing shift `zshift` and the composite map `locStore`.  Python
  dictionaries with provably distinct keys are modelled as association
  lists in insertion order.

* the crystal placement pass of `L1000Baseline._place_crystals`
  (`pylegendgeom/LegendBaseline/L1000Baseline/L1000CompleteSetup.py`) in
  configured mode: `build_placement_map`, `read_config_rows` and
  `place_rows`.  The registry's `logicalVolumeDict` lookup of the
  per-tower volumes `"ULArLV<tower>"` is modelled by `dictGet` over the
  names registered by `build_copper_inserts`; a missing key is again a
  `KeyError` (`Except.error`).
-/

/-! ## Shape description data (JSON geometry dictionary of icpc.py) -/

/-- Parameters of one taper entry of the JSON shape description. -/
structure TaperPars where
  angle_in_deg : Option ℝ
  height_in_mm : Option ℝ

/-- The `taper.top` sub-dictionary. -/
structure TaperTopData where
  inner : Option TaperPars
  outer : Option TaperPars

/-- The `taper.bottom` sub-dictionary. -/
structure TaperBotData where
  outer : Option TaperPars

/-- The `taper` sub-dictionary. -/
structure TaperData where
  top : Option TaperTopData
  bottom : Option TaperBotData

/-- The `well` sub-dictionary. -/
structure WellData where
  gap_in_mm : Option ℝ
  radius_in_mm : Option ℝ

/-- The `groove` sub-dictionary. -/
structure GrooveData where
  outer_radius_in_mm : Option ℝ
  depth_in_mm : Option ℝ
  width_in_mm : Option ℝ

/-- The `geometry` dictionary handed to `_decode_polycone`. -/
structure GeomData where
  height_in_mm : Option ℝ
  radius_in_mm : Option ℝ
  well : Option WellData
  groove : Option GrooveData
  taper : Option TaperData

/-- Python `dict[key]`: the value when present, `KeyError(key)` otherwise.
The error carries the key string, exactly as Python's `KeyError` does. -/
def getK {α : Type} (o : Option α) (k : String) : Except String α :=
  match o with
  | some v => Except.ok v
  | none => Except.error k

/-- `np.deg2rad`. -/
noncomputable def deg2rad (a : ℝ) : ℝ := a * Real.pi / 180

/-- Shallow embedding of `DetICPC._decode_polycone` (icpc.py lines 106-198).
The two parallel `append` calls under each Python `if` are rendered as one
`if` per list with the same (pure) condition; the access order of the
dictionary fields is that of the source. -/
noncomputable def decode_polycone (datadict : GeomData) :
    Except String (List ℝ × List ℝ) := do
  let det_h ← getK datadict.height_in_mm "height_in_mm"
  let det_r ← getK datadict.radius_in_mm "radius_in_mm"
  -- well
  let welldata ← getK datadict.well "well"
  let wgap ← getK welldata.gap_in_mm "gap_in_mm"
  let wrad ← getK welldata.radius_in_mm "radius_in_mm"
  -- first point
  let rlist : List ℝ := [wrad]
  let zlist : List ℝ := [det_h - wgap]
  -- groove
  let groovedata ← getK datadict.groove "groove"
  let grad ← getK groovedata.outer_radius_in_mm "outer_radius_in_mm"
  let gdepth ← getK groovedata.depth_in_mm "depth_in_mm"
  let gwidth ← getK groovedata.width_in_mm "width_in_mm"
  -- taper top
  let tapertopdata ← getK (← getK datadict.taper "taper").top "top"
  let tinner ← getK tapertopdata.inner "inner"
  let alpha ← getK tinner.angle_in_deg "angle_in_deg"
  let tinheight ← getK tinner.height_in_mm "height_in_mm"
  let tstepinner := tinheight * Real.tan (deg2rad alpha)
  let rlist := if tinheight > 0 then rlist ++ [wrad, wrad + tstepinner]
               else rlist ++ [wrad]
  let zlist := if tinheight > 0 then zlist ++ [det_h - tinheight, 0]
               else zlist ++ [0]
  let touter ← getK tapertopdata.outer "outer"
  let alphao ← getK touter.angle_in_deg "angle_in_deg"
  let toutheight ← getK touter.height_in_mm "height_in_mm"
  let tstepouter := toutheight * Real.tan (deg2rad alphao)
  let rlist := if toutheight > 0 then rlist ++ [det_r - tstepouter, det_r]
               else rlist ++ [det_r]
  let zlist := if toutheight > 0 then zlist ++ [0, toutheight]
               else zlist ++ [0]
  let taperbotdata ← getK (← getK datadict.taper "taper").bottom "bottom"
  let touterb ← getK taperbotdata.outer "outer"
  let alphab ← getK touterb.angle_in_deg "angle_in_deg"
  let toutheightb ← getK touterb.height_in_mm "height_in_mm"
  let tstepouterb := toutheightb * Real.tan (deg2rad alphab)
  let rlist := if toutheightb > 0 then rlist ++ [det_r, det_r - tstepouterb]
               else rlist ++ [det_r]
  let zlist := if toutheightb > 0 then zlist ++ [det_h - toutheightb, det_h]
               else zlist ++ [det_h]
  -- walk rest of shape
  let rlist := rlist ++ [grad, grad, grad - gwidth, grad - gwidth, 0, 0]
  let zlist := zlist ++ [det_h, det_h - gdepth, det_h - gdepth, det_h, det_h,
                         det_h - wgap]
  return (rlist, zlist)

/-- A fully populated geometry dictionary with the given field values, in
the field order of the external shape description. -/
def mkGeom (h r wg wr gor gd gw tia tih toa toh tba tbh : ℝ) : GeomData :=
  { height_in_mm := some h
    radius_in_mm := some r
    well := some { gap_in_mm := some wg, radius_in_mm := some wr }
    groove := some { outer_radius_in_mm := some gor, depth_in_mm := some gd,
                     width_in_mm := some gw }
    taper := some
      { top := some
          { inner := some { angle_in_deg := some tia, height_in_mm := some tih }
            outer := some { angle_in_deg := some toa, height_in_mm := some toh } }
        bottom := some
          { outer := some { angle_in_deg := some tba, height_in_mm := some tbh } } } }

/-- Concrete shape description with all three tapers present
(heights 3, 4 and 6 mm). -/
def dAll : GeomData := mkGeom 80 40 20 5 10 2 3 45 3 30 4 15 6

/-- Concrete shape description with all three taper heights zero. -/
def dNone : GeomData := mkGeom 80 40 20 5 10 2 3 45 0 30 0 15 0

/-- Concrete shape description whose `taper.top.inner.angle_in_deg` field is
absent; every other field is present. -/
def dMissInnerAngle : GeomData :=
  { height_in_mm := some 80
    radius_in_mm := some 40
    well := some { gap_in_mm := some 20, radius_in_mm := some 5 }
    groove := some { outer_radius_in_mm := some 10, depth_in_mm := some 2,
                     width_in_mm := some 3 }
    taper := some
      { top := some
          { inner := some { angle_in_deg := none, height_in_mm := some 3 }
            outer := some { angle_in_deg := some 30, height_in_mm := some 4 } }
        bottom := some
          { outer := some { angle_in_deg := some 15, height_in_mm := some 6 } } } }

/-- Concrete shape description whose `taper.top.outer.angle_in_deg` field is
absent; every other field is present. -/
def dMissOuterAngle : GeomData :=
  { height_in_mm := some 80
    radius_in_mm := some 40
    well := some { gap_in_mm := some 20, radius_in_mm := some 5 }
    groove := some { outer_radius_in_mm := some 10, depth_in_mm := some 2,
                     width_in_mm := some 3 }
    taper := some
      { top := some
          { inner := some { angle_in_deg := some 45, height_in_mm := some 3 }
            outer := some { angle_in_deg := none, height_in_mm := some 4 } }
        bottom := some
          { outer := some { angle_in_deg := some 15, height_in_mm := some 6 } } } }

/-- Concrete shape description whose `well.gap_in_mm` field is absent. -/
def dNoGap : GeomData :=
  { height_in_mm := some 80
    radius_in_mm := some 40
    well := some { gap_in_mm := none, radius_in_mm := some 5 }
    groove := some { outer_radius_in_mm := some 10, depth_in_mm := some 2,
                     width_in_mm := some 3 }
    taper := some
      { top := some
          { inner := some { angle_in_deg := some 45, height_in_mm := some 3 }
            outer := some { angle_in_deg := some 30, height_in_mm := some 4 } }
        bottom := some
          { outer := some { angle_in_deg := some 15, height_in_mm := some 6 } } } }

/-- The radius list `_decode_polycone` produces for `dAll`. -/
noncomputable def rAll : List ℝ :=
  [5, 5, 5 + 3 * Real.tan (deg2rad 45), 40 - 4 * Real.tan (deg2rad 30), 40, 40,
   40 - 6 * Real.tan (deg2rad 15), 10, 10, 7, 7, 0, 0]

/-- The height list `_decode_polycone` produces for `dAll`. -/
noncomputable def zAll : List ℝ :=
  [60, 77, 0, 0, 4, 74, 80, 80, 78, 78, 80, 80, 60]

/-- The radius list `_decode_polycone` produces for `dNone`. -/
noncomputable def rNone : List ℝ := [5, 5, 40, 40, 10, 10, 7, 7, 0, 0]

/-- The height list `_decode_polycone` produces for `dNone`. -/
noncomputable def zNone : List ℝ := [60, 0, 0, 80, 80, 78, 78, 80, 80, 60]

/-- All dictionary fields accessed by `_decode_polycone` are present. -/
def allPresent (g : GeomData) : Prop :=
  (∃ x, g.height_in_mm = some x) ∧ (∃ x, g.radius_in_mm = some x) ∧
  (∃ w, g.well = some w ∧ (∃ x, w.gap_in_mm = some x) ∧
    (∃ x, w.radius_in_mm = some x)) ∧
  (∃ gr, g.groove = some gr ∧ (∃ x, gr.outer_radius_in_mm = some x) ∧
    (∃ x, gr.depth_in_mm = some x) ∧ (∃ x, gr.width_in_mm = some x)) ∧
  (∃ t, g.taper = some t ∧
    (∃ tt, t.top = some tt ∧
      (∃ ti, tt.inner = some ti ∧ (∃ x, ti.angle_in_deg = some x) ∧
        (∃ x, ti.height_in_mm = some x)) ∧
      (∃ tu, tt.outer = some tu ∧ (∃ x, tu.angle_in_deg = some x) ∧
        (∃ x, tu.height_in_mm = some x))) ∧
    (∃ tb, t.bottom = some tb ∧
      (∃ tv, tb.outer = some tv ∧ (∃ x, tv.angle_in_deg = some x) ∧
        (∃ x, tv.height_in_mm = some x))))

/-- The key `k` names a field that is absent at one of the dictionary
access sites of `_decode_polycone` (a `KeyError(k)` is possible there). -/
def keyAbsent (g : GeomData) (k : String) : Prop :=
  (k = "height_in_mm" ∧ g.height_in_mm = none) ∨
  (k = "radius_in_mm" ∧ g.radius_in_mm = none) ∨
  (k = "well" ∧ g.well = none) ∨
  (∃ w, g.well = some w ∧
    ((k = "gap_in_mm" ∧ w.gap_in_mm = none) ∨
     (k = "radius_in_mm" ∧ w.radius_in_mm = none))) ∨
  (k = "groove" ∧ g.groove = none) ∨
  (∃ gr, g.groove = some gr ∧
    ((k = "outer_radius_in_mm" ∧ gr.outer_radius_in_mm = none) ∨
     (k = "depth_in_mm" ∧ gr.depth_in_mm = none) ∨
     (k = "width_in_mm" ∧ gr.width_in_mm = none))) ∨
  (k = "taper" ∧ g.taper = none) ∨
  (∃ t, g.taper = some t ∧
    ((k = "top" ∧ t.top = none) ∨
     (∃ tt, t.top = some tt ∧
       ((k = "inner" ∧ tt.inner = none) ∨
        (∃ ti, tt.inner = some ti ∧
          ((k = "angle_in_deg" ∧ ti.angle_in_deg = none) ∨
           (k = "height_in_mm" ∧ ti.height_in_mm = none))) ∨
        (k = "outer" ∧ tt.outer = none) ∨
        (∃ tu, tt.outer = some tu ∧
          ((k = "angle_in_deg" ∧ tu.angle_in_deg = none) ∨
           (k = "height_in_mm" ∧ tu.height_in_mm = none))))) ∨
     (k = "bottom" ∧ t.bottom = none) ∨
     (∃ tb, t.bottom = some tb ∧
       ((k = "outer" ∧ tb.outer = none) ∨
        (∃ tv, tb.outer = some tv ∧
          ((k = "angle_in_deg" ∧ tv.angle_in_deg = none) ∨
           (k = "height_in_mm" ∧ tv.height_in_mm = none)))))))

/-- The point sequence is the silhouette of a plain cylinder: all points lie
on the boundary of one axis-aligned rectangle of the r-z plane. -/
def tracesRectangle (pts : List (ℝ × ℝ)) : Prop :=
  ∃ r0 r1 z0 z1 : ℝ, ∀ p ∈ pts,
    (r0 ≤ p.1 ∧ p.1 ≤ r1 ∧ z0 ≤ p.2 ∧ p.2 ≤ z1) ∧
    (p.1 = r0 ∨ p.1 = r1 ∨ p.2 = z0 ∨ p.2 = z1)

/-! ## DetICPC construction (icpc.py) -/

/-- Top-level JSON dictionary of a shape resource. -/
structure TopData where
  det_name : Option String
  geometry : Option GeomData

/-- Outcome of opening and JSON-parsing the file named in the constructor:
either the `open`/`json.load` step raises, or it yields a top-level
dictionary. -/
inductive JsonInput where
  | unreadable
  | invalidJSON
  | parsed (data : TopData)

/-- Mutable state of a `DetICPC` object: the crystal logical volume is
identified with its decoded profile (the pyg4ometry solid construction is
external). -/
structure DetICPCState where
  crystalLV : Option (List ℝ × List ℝ)
  detname : String

/-- `DetICPC._read_from_file` (icpc.py lines 81-104): everything inside the
`try` block — `open`, `json.load` and the `data["det_name"]` access — is
caught and turned into `None` (after a logged warning); the
`data["geometry"]` access on line 104 is outside the `try` and can raise.
Returns the updated object state and the Python return value. -/
def read_from_file (s : DetICPCState) (j : JsonInput) :
    DetICPCState × Except String (Option GeomData) :=
  match j with
  | JsonInput.unreadable => (s, Except.ok none)
  | JsonInput.invalidJSON => (s, Except.ok none)
  | JsonInput.parsed data =>
    match data.det_name with
    | none => (s, Except.ok none)
    | some nm =>
      match data.geometry with
      | none => ({ s with detname := nm }, Except.error "geometry")
      | some g => ({ s with detname := nm }, Except.ok (some g))

/-- `DetICPC.__init__` (icpc.py lines 15-50): initialise `crystalLV = None`
and `detname = ""`, read the file, and build the crystal only when a
geometry dictionary was obtained.  `_build_crystal` is modelled by its
only computation, `_decode_polycone`. -/
noncomputable def DetICPC_init (j : JsonInput) : Except String DetICPCState :=
  let s : DetICPCState := { crystalLV := none, detname := "" }
  match read_from_file s j with
  | (_, Except.error k) => Except.error k
  | (s1, Except.ok none) => Except.ok s1
  | (s1, Except.ok (some g)) =>
    match decode_polycone g with
    | Except.error k => Except.error k
    | Except.ok p => Except.ok { s1 with crystalLV := some p }

/-- `DetICPC.get_crystal_lv`. -/
def get_crystal_lv (d : DetICPCState) : Option (List ℝ × List ℝ) :=
  d.crystalLV

/-- `DetICPC.get_name`. -/
def get_name (d : DetICPCState) : String :=
  d.detname

/-! ## build_copper_inserts layout (LInfrastructure.py lines 222-328) -/

/-- Copper wall thickness, cm. -/
noncomputable def copper : ℝ := 0.1

/-- Copper insert radius, cm. -/
noncomputable def cu_rad : ℝ := 45.5

/-- Copper insert height, cm. -/
noncomputable def cu_height : ℝ := 400.0

/-- Vertical shift of the copper tubes inside the cryostat, cm. -/
noncomputable def cu_shift : ℝ := 150.0

/-- Radius of the ring of copper inserts, cm. -/
noncomputable def ring_rad : ℝ := 100.0

/-- Radius of the outer ring of strings, cm. -/
noncomputable def string_rad : ℝ := 34.0

/-- Radius for the inner strings 13 and 14, cm. -/
noncomputable def inner_ring : ℝ := 13.5

/-- Number of layers holding templates. -/
def n_of_layers : ℕ := 8

/-- Number of outer-ring strings. -/
def n_of_strings : ℕ := 12

/-- Placeholder cylinder height, cm. -/
noncomputable def placeholder_height : ℝ := 13.0

/-- Gap between placeholders on a string, cm. -/
noncomputable def gap : ℝ := 3.0

/-- Layer pitch `gap + placeholder_height`, cm. -/
noncomputable def layerthickness : ℝ := gap + placeholder_height

/-- `step = 10 * layerthickness / 2` (cm to mm). -/
noncomputable def step : ℝ := 10 * layerthickness / 2

/-- Angular pitch of the outer strings, `2*pi/n_of_strings`. -/
noncomputable def angle : ℝ := 2 * Real.pi / (n_of_strings : ℝ)

/-- Layer pitch in mm, `layerthickness * 10`. -/
noncomputable def ltmm : ℝ := layerthickness * 10

/-- Vertical position of layer `i`:
`zpos = -step + n_of_layers / 2 * ltmm - i * ltmm`. -/
noncomputable def zpos (i : ℕ) : ℝ :=
  -step + (n_of_layers : ℝ) / 2 * ltmm - (i : ℝ) * ltmm

/-- The single-tower map `local_store`, keyed `(string, layer, copynr)` with
`copynr = i + j * n_of_layers`, in the dictionary's insertion order: the 12
outer-ring strings first, then the inner strings 12 and 13 placed at
`x = 0`, `y = 10 * inner_ring * cos((j - 12) * pi)`. -/
noncomputable def local_store : List ((ℕ × ℕ × ℕ) × (ℝ × ℝ × ℝ)) :=
  ((List.range n_of_strings).flatMap fun j =>
    (List.range n_of_layers).map fun i =>
      ((j, i, i + j * n_of_layers),
        (10 * string_rad * Real.cos ((j : ℝ) * angle),
         10 * string_rad * Real.sin ((j : ℝ) * angle),
         zpos i))) ++
  (([12, 13] : List ℕ).flatMap fun j =>
    (List.range n_of_layers).map fun i =>
      ((j, i, i + j * n_of_layers),
        (0, 10 * inner_ring * Real.cos (((j : ℝ) - 12) * Real.pi),
         zpos i)))

/-- The running minimum `zmin` tracked inside the outer-string loop,
starting from `0` and updated by `if zpos < zmin: zmin = zpos` for every
`(j, i)` pair of the outer loop. -/
noncomputable def zmin : ℝ :=
  ((List.range n_of_strings).flatMap fun _ => List.range n_of_layers).foldl
    (fun zm i => if zpos i < zm then zpos i else zm) 0

/-- Tower 0 centre position, mm. -/
noncomputable def pos1 : ℝ × ℝ × ℝ := (10 * ring_rad, 0, 10 * cu_shift)

/-- Tower 1 centre position, mm. -/
noncomputable def pos2 : ℝ × ℝ × ℝ := (0, 10 * ring_rad, 10 * cu_shift)

/-- Tower 2 centre position, mm. -/
noncomputable def pos3 : ℝ × ℝ × ℝ := (-(10 * ring_rad), 0, 10 * cu_shift)

/-- Tower 3 centre position, mm. -/
noncomputable def pos4 : ℝ × ℝ × ℝ := (0, -(10 * ring_rad), 10 * cu_shift)

/-- The hard-coded list of the four tower centre translations. -/
noncomputable def trsf : List (ℝ × ℝ × ℝ) := [pos1, pos2, pos3, pos4]

/-- `maxid = len(local_store)`. -/
noncomputable def maxid : ℕ := local_store.length

/-- The re-basing shift `zshift = 10 * cu_height / 2 + zmin - 100`
(10 cm gap to the bottom of the copper). -/
noncomputable def zshift : ℝ := 10 * cu_height / 2 + zmin - 100

/-- The composite location map `self.locStore`, keyed
`(tower, string, layer, tower * maxid + copynr)`; the stored coordinate is
the tower-local one with only the z re-basing applied (the tower centre
translation `trsf[tower]` is used for the `CopperPV`/`ULArPV` placements,
not for the stored coordinates). -/
noncomputable def locStore : List ((ℕ × ℕ × ℕ × ℕ) × (ℝ × ℝ × ℝ)) :=
  (List.range trsf.length).flatMap fun tower =>
    local_store.map fun kv =>
      ((tower, kv.1.1, kv.1.2.1, tower * maxid + kv.1.2.2),
       (kv.2.1, kv.2.2.1, kv.2.2.2 - zshift))

/-! ## _place_crystals, configured mode (L1000CompleteSetup.py lines 64-160) -/

/-- One parsed row of the CSV detector configuration file; `filename`
carries the outcome of opening the JSON resource the row points to. -/
structure ConfigRow where
  tower : ℕ
  string : ℕ
  layer : ℕ
  filename : JsonInput

/-- The names of the per-tower `ULAr` logical volumes registered in
`reg.logicalVolumeDict` by the tower loop of `build_copper_inserts`
(`"ULArLV" + str(tower)` for each tower). -/
noncomputable def ularNames : List String :=
  (List.range trsf.length).map fun tower => "ULArLV" ++ toString tower

/-- Python dictionary lookup by name: `KeyError` when the name is not
registered. -/
def dictGet (names : List String) (k : String) : Except String String :=
  if k ∈ names then Except.ok k else Except.error k

/-- The `(tower, string, layer) -> coordinate` projection `placement_map`
built from the coordinate map (later assignments overwrite earlier ones,
as for a Python dict). -/
noncomputable def build_placement_map
    (coord_map : List ((ℕ × ℕ × ℕ × ℕ) × (ℝ × ℝ × ℝ))) :
    (ℕ × ℕ × ℕ) → Option (ℝ × ℝ × ℝ) :=
  coord_map.foldl
    (fun pm kv q =>
      if q = (kv.1.1, kv.1.2.1, kv.1.2.2.1) then some kv.2 else pm q)
    (fun _ => none)

/-- The reading loop of configured mode: for each row, record the
`(tower, string, layer)` triple, construct the `DetICPC` from the row's
JSON resource, and record its name and crystal volume (the three parallel
lists, zipped). -/
noncomputable def read_config_rows :
    List ConfigRow →
      Except String (List ((ℕ × ℕ × ℕ) × String × Option (List ℝ × List ℝ)))
  | [] => Except.ok []
  | row :: rest => do
    let det ← DetICPC_init row.filename
    let tail ← read_config_rows rest
    return ((row.tower, row.string, row.layer), get_name det,
            get_crystal_lv det) :: tail

/-- One placement emitted for a configured crystal. -/
structure PlacementRec where
  name : String
  translation : ℝ × ℝ × ℝ
  volume : List ℝ × List ℝ
  host : String

/-- The placement loop of configured mode: for each row the per-tower
volume `"ULArLV" + str(tower)` is looked up first (a `KeyError` if the
tower was never built); then, only when the crystal volume is not `None`,
`placement_map[pos]` is read (a `KeyError` if the triple is absent) and a
physical volume named `"GePV-" + tag` is placed. -/
noncomputable def place_rows (pm : (ℕ × ℕ × ℕ) → Option (ℝ × ℝ × ℝ)) :
    List ((ℕ × ℕ × ℕ) × String × Option (List ℝ × List ℝ)) →
      Except String (List PlacementRec)
  | [] => Except.ok []
  | (pos, tag, lv) :: rest => do
    let label := toString pos.1
    let ular ← dictGet ularNames ("ULArLV" ++ label)
    match lv with
    | some l => do
      let coord ← getK (pm pos) "placement_map"
      let tail ← place_rows pm rest
      return { name := "GePV-" ++ tag, translation := coord, volume := l,
               host := ular } :: tail
    | none => place_rows pm rest

/-- `_place_crystals` in configured mode (non-empty configuration file):
build `placement_map` from the coordinate map, run the reading loop, then
the placement loop. -/
noncomputable def place_crystals_configured
    (coord_map : List ((ℕ × ℕ × ℕ × ℕ) × (ℝ × ℝ × ℝ)))
    (rows : List ConfigRow) : Except String (List PlacementRec) := do
  let pm := build_placement_map coord_map
  let triples ← read_config_rows rows
  place_rows pm triples

/-- Top-level dictionary of a well-formed shape resource used in the
placement scenarios. -/
def topAll : TopData := { det_name := some "Det1", geometry := some dAll }

/-- Configuration row naming tower 5 (absent: only towers 0-3 exist). -/
def row5 : ConfigRow :=
  { tower := 5, string := 0, layer := 0, filename := JsonInput.parsed topAll }

/-- Configuration row naming the valid slot (0,0,0). -/
def row0 : ConfigRow :=
  { tower := 0, string := 0, layer := 0, filename := JsonInput.parsed topAll }

/-! ## Decoder evaluation lemmas -/

/-- Evaluation of the profile decoder on a fully populated dictionary; each
optional-taper `if` is kept with both branches. -/
theorem decode_mkGeom (h r wg wr gor gd gw tia tih toa toh tba tbh : ℝ) :
    decode_polycone (mkGeom h r wg wr gor gd gw tia tih toa toh tba tbh) =
      Except.ok
        (([wr] ++ (if tih > 0 then [wr, wr + tih * Real.tan (deg2rad tia)] else [wr])
            ++ (if toh > 0 then [r - toh * Real.tan (deg2rad toa), r] else [r])
            ++ (if tbh > 0 then [r, r - tbh * Real.tan (deg2rad tba)] else [r])
            ++ [gor, gor, gor - gw, gor - gw, 0, 0],
          [h - wg] ++ (if tih > 0 then [h - tih, 0] else [0])
            ++ (if toh > 0 then [0, toh] else [0])
            ++ (if tbh > 0 then [h - tbh, h] else [h])
            ++ [h, h - gd, h - gd, h, h, h - wg])) := by
  show Except.ok _ = _
  split_ifs <;> simp

/-- Evaluation of the decoder when all three taper heights are positive. -/
theorem decode_all (h r wg wr gor gd gw tia tih toa toh tba tbh : ℝ)
    (h1 : 0 < tih) (h2 : 0 < toh) (h3 : 0 < tbh) :
    decode_polycone (mkGeom h r wg wr gor gd gw tia tih toa toh tba tbh) =
      Except.ok
        ([wr, wr, wr + tih * Real.tan (deg2rad tia),
          r - toh * Real.tan (deg2rad toa), r, r, r - tbh * Real.tan (deg2rad tba),
          gor, gor, gor - gw, gor - gw, 0, 0],
         [h - wg, h - tih, 0, 0, toh, h - tbh, h, h, h - gd, h - gd, h, h, h - wg]) := by
  rw [decode_mkGeom]
  simp only [if_pos h1, if_pos h2, if_pos h3, gt_iff_lt]
  simp

/-- Concrete evaluation of the decoder on `dAll`. -/
theorem decode_dAll : decode_polycone dAll = Except.ok (rAll, zAll) := by
  rw [show dAll = mkGeom 80 40 20 5 10 2 3 45 3 30 4 15 6 from rfl,
    decode_all 80 40 20 5 10 2 3 45 3 30 4 15 6 (by norm_num) (by norm_num)
      (by norm_num)]
  norm_num [rAll, zAll]

/-- Concrete evaluation of the decoder on `dNone`. -/
theorem decode_dNone : decode_polycone dNone = Except.ok (rNone, zNone) := by
  rw [show dNone = mkGeom 80 40 20 5 10 2 3 45 0 30 0 15 0 from rfl, decode_mkGeom]
  norm_num [rNone, zNone]

/-- Building a `DetICPC` from the well-formed resource `topAll` succeeds and
stores the decoded profile and the detector name. -/
theorem DetICPC_init_topAll :
    DetICPC_init (JsonInput.parsed topAll) =
      Except.ok { crystalLV := some (rAll, zAll), detname := "Det1" } := by
  simp only [DetICPC_init, read_from_file, topAll]
  rw [decode_dAll]

/-- Case analysis of the decoder: it either succeeds, with every accessed
field present, or fails with a `KeyError` naming an absent field. -/
theorem decode_cases (g : GeomData) :
    (∃ p, decode_polycone g = Except.ok p ∧ allPresent g) ∨
    (∃ k, decode_polycone g = Except.error k ∧ keyAbsent g k) := by
  obtain ⟨oh, orr, ow, og, ot⟩ := g
  cases oh with
  | none => exact Or.inr ⟨_, rfl, Or.inl ⟨rfl, rfl⟩⟩
  | some det_h =>
  cases orr with
  | none => exact Or.inr ⟨_, rfl, Or.inr (Or.inl ⟨rfl, rfl⟩)⟩
  | some det_r =>
  cases ow with
  | none => exact Or.inr ⟨_, rfl, Or.inr (Or.inr (Or.inl ⟨rfl, rfl⟩))⟩
  | some w =>
  obtain ⟨owg, owr⟩ := w
  cases owg with
  | none =>
    exact Or.inr ⟨_, rfl,
      Or.inr (Or.inr (Or.inr (Or.inl ⟨_, rfl, Or.inl ⟨rfl, rfl⟩⟩)))⟩
  | some wgap =>
  cases owr with
  | none =>
    exact Or.inr ⟨_, rfl,
      Or.inr (Or.inr (Or.inr (Or.inl ⟨_, rfl, Or.inr ⟨rfl, rfl⟩⟩)))⟩
  | some wrad =>
  cases og with
  | none =>
    exact Or.inr ⟨_, rfl,
      Or.inr (Or.inr (Or.inr (Or.inr (Or.inl ⟨rfl, rfl⟩))))⟩
  | some gr =>
  obtain ⟨ogo, ogd, ogw⟩ := gr
  cases ogo with
  | none =>
    exact Or.inr ⟨_, rfl,
      Or.inr (Or.inr (Or.inr (Or.inr (Or.inr (Or.inl
        ⟨_, rfl, Or.inl ⟨rfl, rfl⟩⟩)))))⟩
  | some grad =>
  cases ogd with
  | none =>
    exact Or.inr ⟨_, rfl,
      Or.inr (Or.inr (Or.inr (Or.inr (Or.inr (Or.inl
        ⟨_, rfl, Or.inr (Or.inl ⟨rfl, rfl⟩)⟩)))))⟩
  | some gdepth =>
  cases ogw with
  | none =>
    exact Or.inr ⟨_, rfl,
      Or.inr (Or.inr (Or.inr (Or.inr (Or.inr (Or.inl
        ⟨_, rfl, Or.inr (Or.inr ⟨rfl, rfl⟩)⟩)))))⟩
  | some gwidth =>
  cases ot with
  | none =>
    exact Or.inr ⟨_, rfl,
      Or.inr (Or.inr (Or.inr (Or.inr (Or.inr (Or.inr (Or.inl ⟨rfl, rfl⟩))))))⟩
  | some t =>
  obtain ⟨ott, otb⟩ := t
  cases ott with
  | none =>
    exact Or.inr ⟨_, rfl,
      Or.inr (Or.inr (Or.inr (Or.inr (Or.inr (Or.inr (Or.inr
        ⟨_, rfl, Or.inl ⟨rfl, rfl⟩⟩))))))⟩
  | some tt =>
  obtain ⟨oti, otu⟩ := tt
  cases oti with
  | none =>
    exact Or.inr ⟨_, rfl,
      Or.inr (Or.inr (Or.inr (Or.inr (Or.inr (Or.inr (Or.inr
        ⟨_, rfl, Or.inr (Or.inl ⟨_, rfl, Or.inl ⟨rfl, rfl⟩⟩)⟩))))))⟩
  | some ti =>
  obtain ⟨otia, otih⟩ := ti
  cases otia with
  | none =>
    exact Or.inr ⟨_, rfl,
      Or.inr (Or.inr (Or.inr (Or.inr (Or.inr (Or.inr (Or.inr
        ⟨_, rfl, Or.inr (Or.inl ⟨_, rfl, Or.inr (Or.inl
          ⟨_, rfl, Or.inl ⟨rfl, rfl⟩⟩)⟩)⟩))))))⟩
  | some tia =>
  cases otih with
  | none =>
    exact Or.inr ⟨_, rfl,
      Or.inr (Or.inr (Or.inr (Or.inr (Or.inr (Or.inr (Or.inr
        ⟨_, rfl, Or.inr (Or.inl ⟨_, rfl, Or.inr (Or.inl
          ⟨_, rfl, Or.inr ⟨rfl, rfl⟩⟩)⟩)⟩))))))⟩
  | some tih =>
  cases otu with
  | none =>
    exact Or.inr ⟨_, rfl,
      Or.inr (Or.inr (Or.inr (Or.inr (Or.inr (Or.inr (Or.inr
        ⟨_, rfl, Or.inr (Or.inl ⟨_, rfl, Or.inr (Or.inr (Or.inl
          ⟨rfl, rfl⟩))⟩)⟩))))))⟩
  | some tu =>
  obtain ⟨otua, otuh⟩ := tu
  cases otua with
  | none =>
    exact Or.inr ⟨_, rfl,
      Or.inr (Or.inr (Or.inr (Or.inr (Or.inr (Or.inr (Or.inr
        ⟨_, rfl, Or.inr (Or.inl ⟨_, rfl, Or.inr (Or.inr (Or.inr
          ⟨_, rfl, Or.inl ⟨rfl, rfl⟩⟩))⟩)⟩))))))⟩
  | some tua =>
  cases otuh with
  | none =>
    exact Or.inr ⟨_, rfl,
      Or.inr (Or.inr (Or.inr (Or.inr (Or.inr (Or.inr (Or.inr
        ⟨_, rfl, Or.inr (Or.inl ⟨_, rfl, Or.inr (Or.inr (Or.inr
          ⟨_, rfl, Or.inr ⟨rfl, rfl⟩⟩))⟩)⟩))))))⟩
  | some tuh =>
  cases otb with
  | none =>
    exact Or.inr ⟨_, rfl,
      Or.inr (Or.inr (Or.inr (Or.inr (Or.inr (Or.inr (Or.inr
        ⟨_, rfl, Or.inr (Or.inr (Or.inl ⟨rfl, rfl⟩))⟩))))))⟩
  | some tb =>
  obtain ⟨otv⟩ := tb
  cases otv with
  | none =>
    exact Or.inr ⟨_, rfl,
      Or.inr (Or.inr (Or.inr (Or.inr (Or.inr (Or.inr (Or.inr
        ⟨_, rfl, Or.inr (Or.inr (Or.inr ⟨_, rfl, Or.inl ⟨rfl, rfl⟩⟩))⟩))))))⟩
  | some tv =>
  obtain ⟨otva, otvh⟩ := tv
  cases otva with
  | none =>
    exact Or.inr ⟨_, rfl,
      Or.inr (Or.inr (Or.inr (Or.inr (Or.inr (Or.inr (Or.inr
        ⟨_, rfl, Or.inr (Or.inr (Or.inr ⟨_, rfl, Or.inr
          ⟨_, rfl, Or.inl ⟨rfl, rfl⟩⟩⟩))⟩))))))⟩
  | some tva =>
  cases otvh with
  | none =>
    exact Or.inr ⟨_, rfl,
      Or.inr (Or.inr (Or.inr (Or.inr (Or.inr (Or.inr (Or.inr
        ⟨_, rfl, Or.inr (Or.inr (Or.inr ⟨_, rfl, Or.inr
          ⟨_, rfl, Or.inr ⟨rfl, rfl⟩⟩⟩))⟩))))))⟩
  | some tvh =>
  exact Or.inl ⟨_, rfl,
    ⟨_, rfl⟩, ⟨_, rfl⟩,
    ⟨_, rfl, ⟨_, rfl⟩, ⟨_, rfl⟩⟩,
    ⟨_, rfl, ⟨_, rfl⟩, ⟨_, rfl⟩, ⟨_, rfl⟩⟩,
    ⟨_, rfl,
      ⟨_, rfl, ⟨_, rfl, ⟨_, rfl⟩, ⟨_, rfl⟩⟩, ⟨_, rfl, ⟨_, rfl⟩, ⟨_, rfl⟩⟩⟩,
      ⟨_, rfl, ⟨_, rfl, ⟨_, rfl⟩, ⟨_, rfl⟩⟩⟩⟩⟩

/-! ## Layout helper lemmas -/

/-- The layer height formula in closed form (mm). -/
theorem zpos_eq (i : ℕ) : zpos i = 560 - 160 * (i : ℝ) := by
  simp only [zpos, step, ltmm, layerthickness, gap, placeholder_height,
    n_of_layers]
  norm_num
  ring

/-- The running-minimum update never increases the accumulator. -/
theorem foldl_zmin_le_init (L : List ℕ) :
    ∀ a : ℝ, L.foldl (fun zm i => if zpos i < zm then zpos i else zm) a ≤ a := by
  induction L with
  | nil => intro a; simp
  | cons x xs ih =>
    intro a
    refine le_trans (ih _) ?_
    dsimp only
    split_ifs with hx
    · exact le_of_lt hx
    · exact le_refl a

/-- The running minimum is bounded by every scanned layer height. -/
theorem foldl_zmin_le_mem (L : List ℕ) :
    ∀ (a : ℝ) (i : ℕ), i ∈ L →
      L.foldl (fun zm i => if zpos i < zm then zpos i else zm) a ≤ zpos i := by
  induction L with
  | nil => intro a i hi; cases hi
  | cons x xs ih =>
    intro a i hi
    rcases List.mem_cons.1 hi with rfl | hi2
    · refine le_trans (foldl_zmin_le_init xs _) ?_
      dsimp only
      split_ifs with hx
      · exact le_refl _
      · exact le_of_not_lt hx
    · exact ih _ i hi2

/-- The running minimum stays above every common lower bound of the start
value and the scanned heights. -/
theorem le_foldl_zmin (L : List ℕ) :
    ∀ (a b : ℝ), (∀ i ∈ L, b ≤ zpos i) → b ≤ a →
      b ≤ L.foldl (fun zm i => if zpos i < zm then zpos i else zm) a := by
  induction L with
  | nil => intro a b _ hba; simpa using hba
  | cons x xs ih =>
    intro a b hb hba
    refine ih _ _ (fun i hi => hb i (List.mem_cons_of_mem _ hi)) ?_
    dsimp only
    split_ifs with hx
    · exact hb x (List.mem_cons_self x xs)
    · exact hba

/-- The tracked minimum evaluates to -560 mm (layer 7 of any string). -/
theorem zmin_eq : zmin = -560 := by
  apply le_antisymm
  · have h7 : (7 : ℕ) ∈
        ((List.range n_of_strings).flatMap fun _ => List.range n_of_layers) := by
      decide
    have h := foldl_zmin_le_mem
      ((List.range n_of_strings).flatMap fun _ => List.range n_of_layers) 0 7 h7
    rw [zpos_eq] at h
    norm_num at h
    exact h
  · refine le_foldl_zmin _ 0 (-560) ?_ (by norm_num)
    intro i hi
    simp only [List.mem_flatMap, List.mem_range] at hi
    obtain ⟨a, -, hi8⟩ := hi
    rw [zpos_eq]
    have hc : (i : ℝ) ≤ 7 := by
      exact_mod_cast Nat.lt_succ_iff.1 hi8
    linarith

/-- The re-basing shift evaluates to 1340 mm. -/
theorem zshift_eq : zshift = 1340 := by
  simp only [zshift, cu_height, zmin_eq]
  norm_num

set_option maxRecDepth 8000 in
/-- The local copy numbers of the single-tower map, in insertion order, are
exactly 0..111. -/
theorem local_copy_eq :
    local_store.map (fun kv => kv.1.2.2) = List.range 112 := by decide

set_option maxRecDepth 8000 in
set_option maxHeartbeats 1000000 in
/-- The copy numbers of the composite map, in insertion order, are exactly
0..447. -/
theorem locStore_copy_eq :
    locStore.map (fun kv => kv.1.2.2.2) = List.range 448 := by decide

/-- `len(local_store) = 112`. -/
theorem maxid_eq : maxid = 112 := by decide

/-- Membership in the single-tower map: an entry is an outer-ring slot or an
inner-string slot. -/
theorem local_store_cases {kv : (ℕ × ℕ × ℕ) × (ℝ × ℝ × ℝ)}
    (hkv : kv ∈ local_store) :
    (∃ j i, j < n_of_strings ∧ i < n_of_layers ∧
      kv = ((j, i, i + j * n_of_layers),
        (10 * string_rad * Real.cos ((j : ℝ) * angle),
         10 * string_rad * Real.sin ((j : ℝ) * angle), zpos i))) ∨
    (∃ j i, (j = 12 ∨ j = 13) ∧ i < n_of_layers ∧
      kv = ((j, i, i + j * n_of_layers),
        (0, 10 * inner_ring * Real.cos (((j : ℝ) - 12) * Real.pi), zpos i))) := by
  simp only [local_store, List.mem_append, List.mem_flatMap, List.mem_map,
    List.mem_range, List.mem_cons, List.not_mem_nil, or_false] at hkv
  rcases hkv with ⟨j, hj, i, hi, hkv⟩ | ⟨j, hj, i, hi, hkv⟩
  · exact Or.inl ⟨j, i, hj, hi, hkv.symm⟩
  · exact Or.inr ⟨j, i, hj, hi, hkv.symm⟩

/-- Forward membership: each tower replicates every single-tower entry into
the composite map, with the copy offset and the re-based z. -/
theorem mem_locStore (t : ℕ) (ht : t < trsf.length)
    (kv : (ℕ × ℕ × ℕ) × (ℝ × ℝ × ℝ)) (hkv : kv ∈ local_store) :
    ((t, kv.1.1, kv.1.2.1, t * maxid + kv.1.2.2),
     (kv.2.1, kv.2.2.1, kv.2.2.2 - zshift)) ∈ locStore := by
  simp only [locStore, List.mem_flatMap, List.mem_range]
  exact ⟨t, ht, List.mem_map.2 ⟨kv, hkv, rfl⟩⟩

/-- Backward membership: every composite entry arises from a tower index and
a single-tower entry. -/
theorem locStore_cases {kv : (ℕ × ℕ × ℕ × ℕ) × (ℝ × ℝ × ℝ)}
    (h : kv ∈ locStore) :
    ∃ t lkv, t < trsf.length ∧ lkv ∈ local_store ∧
      kv = ((t, lkv.1.1, lkv.1.2.1, t * maxid + lkv.1.2.2),
            (lkv.2.1, lkv.2.2.1, lkv.2.2.2 - zshift)) := by
  simp only [locStore, List.mem_flatMap, List.mem_range, List.mem_map] at h
  obtain ⟨t, ht, lkv, hlkv, heq⟩ := h
  exact ⟨t, lkv, ht, hlkv, heq.symm⟩

/-- The slot (string 0, layer 0) of the single-tower map. -/
theorem mem_local_store_00 :
    (((0, 0, 0) : ℕ × ℕ × ℕ), ((10 * string_rad : ℝ), (0 : ℝ), zpos 0)) ∈
      local_store := by
  have h0 : (((0 : ℕ), (0 : ℕ), (0 : ℕ)),
      (10 * string_rad * Real.cos (((0 : ℕ) : ℝ) * angle),
       10 * string_rad * Real.sin (((0 : ℕ) : ℝ) * angle), zpos 0)) ∈
        local_store := by
    refine List.mem_append_left _ ?_
    refine List.mem_flatMap.2 ⟨0, ?_, ?_⟩
    · simp [n_of_strings]
    · refine List.mem_map.2 ⟨0, ?_, ?_⟩
      · simp [n_of_layers]
      · norm_num
  simpa using h0

/-- The slot (string 0, layer 7) of the single-tower map. -/
theorem mem_local_store_07 :
    (((0, 7, 7) : ℕ × ℕ × ℕ), ((10 * string_rad : ℝ), (0 : ℝ), zpos 7)) ∈
      local_store := by
  have h0 : (((0 : ℕ), (7 : ℕ), (7 : ℕ)),
      (10 * string_rad * Real.cos (((0 : ℕ) : ℝ) * angle),
       10 * string_rad * Real.sin (((0 : ℕ) : ℝ) * angle), zpos 7)) ∈
        local_store := by
    refine List.mem_append_left _ ?_
    refine List.mem_flatMap.2 ⟨0, ?_, ?_⟩
    · simp [n_of_strings]
    · refine List.mem_map.2 ⟨7, ?_, ?_⟩
      · simp [n_of_layers]
      · norm_num
  simpa using h0

/-- Tower 0 holds slot (0,0) at copy number 0. -/
theorem mem_locStore_0000 :
    (((0, 0, 0, 0) : ℕ × ℕ × ℕ × ℕ),
     ((10 * string_rad : ℝ), (0 : ℝ), zpos 0 - zshift)) ∈ locStore := by
  have h := mem_locStore 0 (by norm_num [trsf]) _ mem_local_store_00
  simpa using h

/-- Tower 1 holds slot (0,0) at copy number 112, with the same stored
coordinate as tower 0. -/
theorem mem_locStore_1000 :
    (((1, 0, 0, 112) : ℕ × ℕ × ℕ × ℕ),
     ((10 * string_rad : ℝ), (0 : ℝ), zpos 0 - zshift)) ∈ locStore := by
  have h := mem_locStore 1 (by norm_num [trsf]) _ mem_local_store_00
  simpa [maxid_eq] using h

/-- Tower 0 holds slot (0,7) at copy number 7 (the overall lowest layer). -/
theorem mem_locStore_0077 :
    (((0, 0, 7, 7) : ℕ × ℕ × ℕ × ℕ),
     ((10 * string_rad : ℝ), (0 : ℝ), zpos 7 - zshift)) ∈ locStore := by
  have h := mem_locStore 0 (by norm_num [trsf]) _ mem_local_store_07
  simpa using h

/-! ## Claims -/

/-- C1 (corrected): in configured mode, a configuration row naming a tower
with no built per-tower volume (e.g. tower 5 when only towers 0-3 exist) is
not a silent no-op: the lookup of `"ULArLV" + str(tower)` in the registry's
volume dictionary raises `KeyError("ULArLV5")` before the crystal volume or
the placement map is even examined, so no placement record is emitted for
that row and the remaining rows are not processed. -/
theorem C1_theorem (cm : List ((ℕ × ℕ × ℕ × ℕ) × (ℝ × ℝ × ℝ))) (s l : ℕ)
    (tag : String) (lv : Option (List ℝ × List ℝ))
    (rest : List ((ℕ × ℕ × ℕ) × String × Option (List ℝ × List ℝ))) :
    place_rows (build_placement_map cm) (((5, s, l), tag, lv) :: rest) =
      Except.error "ULArLV5" := by
  have hmem : "ULArLV5" ∉ ularNames := by decide
  have hd : dictGet ularNames ("ULArLV" ++ toString (5 : ℕ)) =
      Except.error "ULArLV5" := by
    rw [show ("ULArLV" ++ toString (5 : ℕ)) = "ULArLV5" by decide]
    simp only [dictGet, if_neg hmem]
  simp only [place_rows]
  rw [hd]
  rfl

/-- C1 counterexample: running the configured-mode placement on the actual
composite location map with the row list [(tower=5,string=0,layer=0),
(tower=0,string=0,layer=0)] — both rows referencing a well-formed shape
resource — ends in `KeyError("ULArLV5")`: the bad row is not silently
skipped, no record is emitted, and the following valid row is abandoned,
contrary to the claimed no-op. -/
theorem C1_counterexample :
    place_crystals_configured locStore [row5, row0] =
      Except.error "ULArLV5" := by
  have h1 : read_config_rows [row5, row0] =
      Except.ok [((5, 0, 0), "Det1", some (rAll, zAll)),
                 ((0, 0, 0), "Det1", some (rAll, zAll))] := by
    simp only [read_config_rows, row5, row0]
    rw [DetICPC_init_topAll]
    rfl
  have h2 : place_rows (build_placement_map locStore)
      [((5, 0, 0), "Det1", some (rAll, zAll)),
       ((0, 0, 0), "Det1", some (rAll, zAll))] = Except.error "ULArLV5" := rfl
  show Except.bind (read_config_rows [row5, row0])
    (fun triples => place_rows (build_placement_map locStore) triples) =
      Except.error "ULArLV5"
  rw [h1]
  exact h2

/-- C2 (corrected): on every fully populated shape description the decoder
returns equally long radius and height lists, but the point count is 10
plus the number of tapers with positive height — between 10 and 13 — not
one fixed constant: an absent taper contributes one point where a present
taper contributes two. -/
theorem C2_theorem (h r wg wr gor gd gw tia tih toa toh tba tbh : ℝ) :
    ∃ rl zl : List ℝ,
      decode_polycone (mkGeom h r wg wr gor gd gw tia tih toa toh tba tbh) =
        Except.ok (rl, zl) ∧ rl.length = zl.length ∧
      rl.length = 10 + (if 0 < tih then 1 else 0) + (if 0 < toh then 1 else 0)
        + (if 0 < tbh then 1 else 0) := by
  refine ⟨_, _, decode_mkGeom h r wg wr gor gd gw tia tih toa toh tba tbh,
    ?_, ?_⟩ <;>
  · split_ifs <;> simp

/-- C2 counterexample: the all-tapers input `dAll` decodes to 13 points
while the taper-free input `dNone` decodes to 10 points, so the point count
of the decoder is not one fixed constant over accepted inputs. -/
theorem C2_counterexample :
    decode_polycone dAll = Except.ok (rAll, zAll) ∧ rAll.length = 13 ∧
    decode_polycone dNone = Except.ok (rNone, zNone) ∧ rNone.length = 10 ∧
    (13 : ℕ) ≠ 10 :=
  ⟨decode_dAll, by decide, decode_dNone, by decide, by norm_num⟩

/-- C5 (corrected): with all three taper heights positive the decoder emits
exactly the 13-vertex walk of the source with the source's z coordinates,
which differ from the spec's: the inner top-taper vertices sit at heights
`height - inner.height` and `0` (spec: `height - inner.height` and
`height`), the outer top-taper vertices at `0` and `outer.height` (spec:
`height` and `height - outer.height`), and the groove vertices at `height`
and `height - groove.depth` (spec: `0` and `groove.depth`). -/
theorem C5_theorem (h r wg wr gor gd gw tia tih toa toh tba tbh : ℝ)
    (h1 : 0 < tih) (h2 : 0 < toh) (h3 : 0 < tbh) :
    decode_polycone (mkGeom h r wg wr gor gd gw tia tih toa toh tba tbh) =
      Except.ok
        ([wr, wr, wr + tih * Real.tan (deg2rad tia),
          r - toh * Real.tan (deg2rad toa), r, r,
          r - tbh * Real.tan (deg2rad tba),
          gor, gor, gor - gw, gor - gw, 0, 0],
         [h - wg, h - tih, 0, 0, toh, h - tbh, h, h, h - gd, h - gd, h, h,
          h - wg]) :=
  decode_all h r wg wr gor gd gw tia tih toa toh tba tbh h1 h2 h3

/-- C5 witness: the walk of `C5_theorem` evaluated on the concrete
all-tapers shape description. -/
theorem C5_witness :
    decode_polycone (mkGeom 80 40 20 5 10 2 3 45 3 30 4 15 6) =
      Except.ok
        ([5, 5, 5 + 3 * Real.tan (deg2rad 45),
          40 - 4 * Real.tan (deg2rad 30), 40, 40,
          40 - 6 * Real.tan (deg2rad 15),
          10, 10, 10 - 3, 10 - 3, 0, 0],
         [80 - 20, 80 - 3, 0, 0, 4, 80 - 6, 80, 80, 80 - 2, 80 - 2, 80, 80,
          80 - 20]) :=
  C5_theorem 80 40 20 5 10 2 3 45 3 30 4 15 6 (by norm_num) (by norm_num)
    (by norm_num)

/-- C5 counterexample: on `dAll` (height 80, groove depth 2, outer taper
height 4) the groove vertices have heights 80 and 78, not the claimed base
heights 0 and 2, and the outer top-taper vertices have heights 0 and 4, not
the claimed 80 and 76. -/
theorem C5_counterexample :
    decode_polycone dAll = Except.ok (rAll, zAll) ∧
    zAll[7]? = some 80 ∧ zAll[8]? = some 78 ∧
    (80 : ℝ) ≠ 0 ∧ (78 : ℝ) ≠ 2 ∧
    zAll[3]? = some 0 ∧ zAll[4]? = some 4 ∧
    (0 : ℝ) ≠ 80 ∧ (4 : ℝ) ≠ 80 - 4 := by
  refine ⟨decode_dAll, rfl, rfl, by norm_num, by norm_num, rfl, rfl,
    by norm_num, by norm_num⟩

/-- C9 (corrected): with all three taper heights zero each taper step emits
a single point, but the well and groove features remain: the profile is the
10-point walk below, which is a plain rectangle only in the degenerate case
where the well gap and the groove depth and width also vanish. -/
theorem C9_theorem (h r wg wr gor gd gw tia toa tba : ℝ) :
    decode_polycone (mkGeom h r wg wr gor gd gw tia 0 toa 0 tba 0) =
      Except.ok ([wr, wr, r, r, gor, gor, gor - gw, gor - gw, 0, 0],
                 [h - wg, 0, 0, h, h, h - gd, h - gd, h, h, h - wg]) := by
  rw [decode_mkGeom]
  norm_num

/-- C9 counterexample: the taper-free profile of `dNone` contains the well
vertex (5, 60), which lies strictly inside every axis-aligned rectangle
containing the profile's extreme points (0,80), (40,0): the point sequence
does not trace a plain cylinder silhouette (a rectangle in the r-z
plane). -/
theorem C9_counterexample :
    decode_polycone dNone = Except.ok (rNone, zNone) ∧
    ¬ tracesRectangle (rNone.zip zNone) := by
  refine ⟨decode_dNone, ?_⟩
  rintro ⟨r0, r1, z0, z1, hp⟩
  have hmem1 : ((5 : ℝ), (60 : ℝ)) ∈ rNone.zip zNone := by
    simp [rNone, zNone]
  have hmem2 : ((0 : ℝ), (80 : ℝ)) ∈ rNone.zip zNone := by
    simp [rNone, zNone]
  have hmem3 : ((40 : ℝ), (0 : ℝ)) ∈ rNone.zip zNone := by
    simp [rNone, zNone]
  obtain ⟨⟨hb1, hb2, hb3, hb4⟩, he⟩ := hp _ hmem1
  obtain ⟨⟨hc1, -, -, hc4⟩, -⟩ := hp _ hmem2
  obtain ⟨⟨-, hd2, hd3, -⟩, -⟩ := hp _ hmem3
  dsimp only at hb1 hb2 hb3 hb4 he hc1 hc4 hd2 hd3
  rcases he with he | he | he | he
  · linarith
  · linarith
  · linarith
  · linarith

/-- C4 (corrected): when a required nested field of the shape description is
absent, decoding fails synchronously with an uncaught `KeyError` — modelled
as `Except.error k` — whose key `k` names an absent field, and no profile,
partial or otherwise, is returned; the error however carries only the final
key name, not the full field path, and the code raises a plain `KeyError`
rather than a dedicated `MalformedShapeError`. -/
theorem C4_theorem :
    (∀ g k, decode_polycone g = Except.error k → keyAbsent g k) ∧
    (∀ g p, decode_polycone g = Except.ok p → allPresent g) ∧
    (∀ g, ¬ allPresent g →
      ∃ k, decode_polycone g = Except.error k ∧ keyAbsent g k) := by
  refine ⟨?_, ?_, ?_⟩
  · intro g k hk
    rcases decode_cases g with ⟨p, hp, -⟩ | ⟨k2, hk2, ha⟩
    · rw [hp] at hk; cases hk
    · rw [hk2] at hk
      injection hk with h
      rw [← h]
      exact ha
  · intro g p hp
    rcases decode_cases g with ⟨p2, hp2, ha⟩ | ⟨k, hk, -⟩
    · exact ha
    · rw [hk] at hp; cases hp
  · intro g hna
    rcases decode_cases g with ⟨p, hp, ha⟩ | ⟨k, hk, ha⟩
    · exact absurd ha hna
    · exact ⟨k, hk, ha⟩

/-- C4 witness: decoding the description missing `well.gap_in_mm` fails
with `KeyError("gap_in_mm")`, and the theorem locates the absent field. -/
theorem C4_witness : keyAbsent dNoGap "gap_in_mm" :=
  C4_theorem.1 dNoGap "gap_in_mm" rfl

/-- C4 counterexample: the missing-inner-angle and missing-outer-angle
descriptions fail with the identical error `KeyError("angle_in_deg")`, even
though the absent fields lie at different paths (`taper.top.inner` versus
`taper.top.outer`), so the raised error does not identify the missing field
path — it names only the leaf key. -/
theorem C4_counterexample :
    decode_polycone dMissInnerAngle = Except.error "angle_in_deg" ∧
    decode_polycone dMissOuterAngle = Except.error "angle_in_deg" ∧
    (∃ t tt ti, dMissInnerAngle.taper = some t ∧ t.top = some tt ∧
      tt.inner = some ti ∧ ti.angle_in_deg = none) ∧
    (∃ t tt ti x, dMissOuterAngle.taper = some t ∧ t.top = some tt ∧
      tt.inner = some ti ∧ ti.angle_in_deg = some x) ∧
    (∃ t tt tu, dMissOuterAngle.taper = some t ∧ t.top = some tt ∧
      tt.outer = some tu ∧ tu.angle_in_deg = none) :=
  ⟨rfl, rfl, ⟨_, _, _, rfl, rfl, rfl, rfl⟩, ⟨_, _, _, _, rfl, rfl, rfl, rfl⟩,
   ⟨_, _, _, rfl, rfl, rfl, rfl⟩⟩

/-- C10 (confirmed): whenever reading the shape resource fails — unreadable
file, invalid JSON, or a parsed dictionary missing `det_name` — the
exception is caught inside the `try` block of `_read_from_file`, which
returns `None` (after logging a warning); the `DetICPC` constructor then
completes without raising, leaving `get_crystal_lv()` equal to `None` and
`get_name()` equal to the empty string. -/
theorem C10_theorem (j : JsonInput)
    (hj : j = JsonInput.unreadable ∨ j = JsonInput.invalidJSON ∨
      ∃ d, j = JsonInput.parsed d ∧ d.det_name = none) :
    DetICPC_init j = Except.ok { crystalLV := none, detname := "" } ∧
    get_crystal_lv { crystalLV := none, detname := "" } = none ∧
    get_name { crystalLV := none, detname := "" } = "" := by
  refine ⟨?_, rfl, rfl⟩
  rcases hj with rfl | rfl | ⟨d, rfl, hd⟩
  · rfl
  · rfl
  · obtain ⟨dn, ge⟩ := d
    cases dn with
    | none => rfl
    | some nm => cases hd

/-- C10 witness: the unreadable-file case of `C10_theorem`. -/
theorem C10_witness :
    DetICPC_init JsonInput.unreadable =
      Except.ok { crystalLV := none, detname := "" } ∧
    get_crystal_lv { crystalLV := none, detname := "" } = none ∧
    get_name { crystalLV := none, detname := "" } = "" :=
  C10_theorem JsonInput.unreadable (Or.inl rfl)

/-- C3 (confirmed): the composite location map has exactly
`nTowers * stringsPerTower * layersPerTower = 4 * 14 * 8 = 448` entries;
every stored copy number equals
`tower * maxid + (layer + string * n_of_layers)` with `maxid = 14 * 8`, and
the copy numbers are pairwise distinct integers in [0, 448). -/
theorem C3_theorem :
    locStore.length = 4 * 14 * 8 ∧
    maxid = (n_of_strings + 2) * n_of_layers ∧
    (∀ kv ∈ locStore,
      kv.1.2.2.2 = kv.1.1 * maxid + (kv.1.2.2.1 + kv.1.2.1 * n_of_layers)) ∧
    (locStore.map fun kv => kv.1.2.2.2).Nodup ∧
    (∀ kv ∈ locStore, kv.1.2.2.2 < 4 * 14 * 8) := by
  refine ⟨?_, by decide, ?_, ?_, ?_⟩
  · have h := congrArg List.length locStore_copy_eq
    rw [List.length_map, List.length_range] at h
    rw [h]
  · intro kv hkv
    obtain ⟨t, lkv, ht, hlkv, rfl⟩ := locStore_cases hkv
    rcases local_store_cases hlkv with ⟨j, i, hj, hi, rfl⟩ | ⟨j, i, hj, hi, rfl⟩ <;>
      rfl
  · rw [locStore_copy_eq]
    exact List.nodup_range 448
  · intro kv hkv
    have h := List.mem_map_of_mem (fun kv => kv.1.2.2.2) hkv
    rw [locStore_copy_eq] at h
    exact List.mem_range.1 h

/-- C3 witness: the copy-number conjuncts of `C3_theorem` instantiated at
the composite-map entry with key (1, 0, 0, 112). -/
theorem C3_witness :
    (112 : ℕ) = 1 * maxid + (0 + 0 * n_of_layers) ∧ (112 : ℕ) < 4 * 14 * 8 :=
  ⟨C3_theorem.2.2.1 _ mem_locStore_1000, C3_theorem.2.2.2.2 _ mem_locStore_1000⟩

/-- C6 (corrected): the composite map stores the tower-local coordinate with
only the vertical re-basing applied — the tower centre offset is not added
to the stored coordinate (the offsets place the per-tower copper/ULAr
volumes, inside which the stored coordinates are later used); consequently
entries of different towers at the same (string, layer) are identical, not
shifted by the difference of the tower offsets. -/
theorem C6_theorem :
    (∀ t, t < trsf.length → ∀ kv ∈ local_store,
      ((t, kv.1.1, kv.1.2.1, t * maxid + kv.1.2.2),
       (kv.2.1, kv.2.2.1, kv.2.2.2 - zshift)) ∈ locStore) ∧
    (∀ p ∈ locStore, ∀ q ∈ locStore,
      p.1.2.1 = q.1.2.1 → p.1.2.2.1 = q.1.2.2.1 → p.2 = q.2) := by
  constructor
  · intro t ht kv hkv
    exact mem_locStore t ht kv hkv
  · intro p hp q hq hs hl
    obtain ⟨tp, pk, htp, hpk, rfl⟩ := locStore_cases hp
    obtain ⟨tq, qk, htq, hqk, rfl⟩ := locStore_cases hq
    rcases local_store_cases hpk with ⟨j1, i1, hj1, hi1, rfl⟩ |
        ⟨j1, i1, hj1, hi1, rfl⟩ <;>
      rcases local_store_cases hqk with ⟨j2, i2, hj2, hi2, rfl⟩ |
        ⟨j2, i2, hj2, hi2, rfl⟩ <;>
      dsimp only at hs hl ⊢
    · subst hs; subst hl; rfl
    · have hj1n : j1 < 12 := hj1
      rcases hj2 with rfl | rfl <;> omega
    · have hj2n : j2 < 12 := hj2
      rcases hj1 with rfl | rfl <;> omega
    · subst hs; subst hl; rfl

/-- C6 witness: tower 0 replicates the local slot (string 0, layer 0) into
the composite map via `C6_theorem`. -/
theorem C6_witness :
    (((0 : ℕ), (0 : ℕ), (0 : ℕ), 0 * maxid + 0),
     ((10 * string_rad : ℝ), (0 : ℝ), zpos 0 - zshift)) ∈ locStore :=
  C6_theorem.1 0 (by norm_num [trsf]) _ mem_local_store_00

/-- C6 counterexample: towers 0 and 1 both store the coordinate
(10*string_rad, 0, zpos 0 - zshift) for slot (string 0, layer 0), yet their
centre offsets pos1 and pos2 differ, so the two entries do not differ by
the difference of the tower offsets. -/
theorem C6_counterexample :
    ¬ (∀ p ∈ locStore, ∀ q ∈ locStore,
        p.1.1 = 0 → q.1.1 = 1 → p.1.2.1 = q.1.2.1 → p.1.2.2.1 = q.1.2.2.1 →
        (q.2.1 - p.2.1, q.2.2.1 - p.2.2.1, q.2.2.2 - p.2.2.2) =
          (pos2.1 - pos1.1, pos2.2.1 - pos1.2.1, pos2.2.2 - pos1.2.2)) := by
  intro hcl
  have h := hcl _ mem_locStore_0000 _ mem_locStore_1000 rfl rfl rfl rfl
  dsimp only at h
  rw [Prod.mk.injEq, Prod.mk.injEq] at h
  obtain ⟨h1, -, -⟩ := h
  rw [sub_self] at h1
  norm_num [pos1, pos2, ring_rad] at h1

/-- C7 (confirmed): the re-basing shift is computed once as
`zshift = 10 * cu_height / 2 + zmin - 100`, it is subtracted uniformly from
the z of every stored coordinate, and the minimum z over the whole
composite map equals the fixed 100 mm margin above the enclosure floor
reference `-(10 * cu_height / 2)`. -/
theorem C7_theorem :
    zshift = 10 * cu_height / 2 + zmin - 100 ∧
    (∀ kv ∈ locStore, kv.2.2.2 = zpos kv.1.2.2.1 - zshift) ∧
    (∀ kv ∈ locStore, -(10 * cu_height / 2) + 100 ≤ kv.2.2.2) ∧
    (((0, 0, 7, 7) : ℕ × ℕ × ℕ × ℕ),
      ((10 * string_rad : ℝ), (0 : ℝ), zpos 7 - zshift)) ∈ locStore ∧
    zpos 7 - zshift = -(10 * cu_height / 2) + 100 := by
  refine ⟨rfl, ?_, ?_, mem_locStore_0077, ?_⟩
  · intro kv hkv
    obtain ⟨t, lkv, ht, hlkv, rfl⟩ := locStore_cases hkv
    rcases local_store_cases hlkv with ⟨j, i, hj, hi, rfl⟩ |
      ⟨j, i, hj, hi, rfl⟩ <;> rfl
  · intro kv hkv
    obtain ⟨t, lkv, ht, hlkv, rfl⟩ := locStore_cases hkv
    rcases local_store_cases hlkv with ⟨j, i, hj, hi, rfl⟩ |
        ⟨j, i, hj, hi, rfl⟩ <;>
    · dsimp only
      have hi8 : (i : ℝ) ≤ 7 := by
        have h7 : i ≤ 7 := Nat.lt_succ_iff.1 hi
        exact_mod_cast h7
      rw [zpos_eq, zshift_eq]
      simp only [cu_height]
      norm_num
      linarith
  · rw [zpos_eq, zshift_eq]
    simp only [cu_height]
    norm_num

/-- C7 witness: the per-entry floor-margin bound of `C7_theorem` at the
lowest slot (tower 0, string 0, layer 7). -/
theorem C7_witness :
    -(10 * cu_height / 2) + 100 ≤ zpos 7 - zshift :=
  C7_theorem.2.2.1 _ mem_locStore_0077

/-- C8 (confirmed): the single-tower local layout map has exactly
`12*8 + 2*8 = 112` entries; outer string j sits at angle
`j * (2*pi/n_of_strings)` on the ring of radius `10 * string_rad` (mm), and
the (x, y) of every outer-ring slot satisfies
`x^2 + y^2 = (10 * string_rad)^2`. -/
theorem C8_theorem :
    local_store.length = n_of_strings * n_of_layers + 2 * n_of_layers ∧
    (∀ j i, j < n_of_strings → i < n_of_layers →
      ((j, i, i + j * n_of_layers),
        (10 * string_rad * Real.cos ((j : ℝ) * angle),
         10 * string_rad * Real.sin ((j : ℝ) * angle), zpos i)) ∈
        local_store) ∧
    (∀ kv ∈ local_store, kv.1.1 < n_of_strings →
      kv.2.1 ^ 2 + kv.2.2.1 ^ 2 = (10 * string_rad) ^ 2) := by
  refine ⟨by decide, ?_, ?_⟩
  · intro j i hj hi
    refine List.mem_append_left _ ?_
    exact List.mem_flatMap.2 ⟨j, List.mem_range.2 hj,
      List.mem_map.2 ⟨i, List.mem_range.2 hi, rfl⟩⟩
  · intro kv hkv hout
    rcases local_store_cases hkv with ⟨j, i, hj, hi, rfl⟩ |
      ⟨j, i, hj, hi, rfl⟩
    · dsimp only
      have hcs : Real.cos ((j : ℝ) * angle) ^ 2 +
          Real.sin ((j : ℝ) * angle) ^ 2 = 1 :=
        Real.cos_sq_add_sin_sq ((j : ℝ) * angle)
      linear_combination (10 * string_rad) ^ 2 * hcs
    · dsimp only at hout
      rcases hj with rfl | rfl
      · exact absurd hout (by decide)
      · exact absurd hout (by decide)

/-- C8 witness: membership of the outer-ring slot (string 0, layer 0) via
`C8_theorem`. -/
theorem C8_witness :
    (((0 : ℕ), (0 : ℕ), 0 + 0 * n_of_layers),
      (10 * string_rad * Real.cos (((0 : ℕ) : ℝ) * angle),
       10 * string_rad * Real.sin (((0 : ℕ) : ℝ) * angle), zpos 0)) ∈
      local_store :=
  C8_theorem.2.1 0 0 (by decide) (by decide)
